import Mathlib

/-!
Shallow embedding of the qBittorrent Jackett search plugin (jackett.py):
the item normalizer, the per-indexer query worker, the search
orchestration, the URL fetcher, and the error reporting path, together
with the result deduplicator described by the design specification
(the deduplicator is not part of the plugin file under review).
-/

namespace Jackett

/-! ### Python string primitives -/

/-- Hexadecimal value of a character, as used by percent-decoding. -/
def hexVal? (c : Char) : Option Nat :=
  if c.isDigit then some (c.toNat - 48)
  else if 97 ≤ c.toNat ∧ c.toNat ≤ 102 then some (c.toNat - 87)
  else if 65 ≤ c.toNat ∧ c.toNat ≤ 70 then some (c.toNat - 55)
  else none

/-- Percent-decoding of urllib.parse.unquote, modelled byte by byte for
single-byte escape sequences; an escape not followed by two hex digits is
left verbatim, as in Python. Multi-byte UTF-8 escape sequences decode to
one character per byte here, which no claim depends on. -/
def pyUnquoteList : List Char → List Char
  | [] => []
  | '%' :: a :: b :: rest =>
    match hexVal? a, hexVal? b with
    | some x, some y => Char.ofNat (16 * x + y) :: pyUnquoteList rest
    | _, _ => '%' :: pyUnquoteList (a :: b :: rest)
  | c :: rest => c :: pyUnquoteList rest

/-- unquote(what) from the head of jackett.search. -/
def pyUnquote (s : String) : String := String.mk (pyUnquoteList s.data)

/-- Numeric value of a list of decimal digit characters. -/
def digitsVal (l : List Char) : Nat := l.foldl (fun n c => 10 * n + (c.toNat - 48)) 0

/-- Python int(str): strips surrounding whitespace, accepts an optional
sign followed by at least one decimal digit, and raises ValueError (here:
none) otherwise. Digit-group underscores and non-ASCII digits are not
modelled; no claim depends on them. -/
def pyInt? (s : String) : Option Int :=
  let t := ((s.data.dropWhile Char.isWhitespace).reverse.dropWhile Char.isWhitespace).reverse
  match t with
  | [] => none
  | '+' :: ds => if ds ≠ [] ∧ ds.all Char.isDigit then some (digitsVal ds) else none
  | '-' :: ds => if ds ≠ [] ∧ ds.all Char.isDigit then some (-(digitsVal ds : Int)) else none
  | ds => if ds.all Char.isDigit then some (digitsVal ds) else none

/-- str.replace for a single-character pattern, as in
name.replace of jackett, pattern the pipe character. -/
def replaceChar (c : Char) (rep : List Char) : List Char → List Char
  | [] => []
  | x :: xs => (if x = c then rep else [x]) ++ replaceChar c rep xs

/-- The pipe-escaping applied to the display name. -/
def escapePipes (s : String) : String := String.mk (replaceChar '|' "%7C".data s.data)

/-- str.lower restricted to ASCII, used on the category token. -/
def pyLower (s : String) : String := String.mk (s.data.map Char.toLower)

/-! ### Publish-date parsing

datetime.strptime with the fixed pattern of jackett.py
(RFC-2822 style: Day, DD Mon YYYY HH:MM:SS with a numeric zone offset),
then the integral unix timestamp. Any mismatch yields none, which the
caller turns into the sentinel -1. -/

/-- Month-abbreviation table of the strptime pattern. -/
def monthNum : String → Option Nat
  | "Jan" => some 1
  | "Feb" => some 2
  | "Mar" => some 3
  | "Apr" => some 4
  | "May" => some 5
  | "Jun" => some 6
  | "Jul" => some 7
  | "Aug" => some 8
  | "Sep" => some 9
  | "Oct" => some 10
  | "Nov" => some 11
  | "Dec" => some 12
  | _ => none

/-- Weekday abbreviations accepted by the strptime pattern; the parsed
weekday is not cross-checked against the date, as in Python. -/
def dayAbbrevOk (s : String) : Bool :=
  s = "Mon" ∨ s = "Tue" ∨ s = "Wed" ∨ s = "Thu" ∨ s = "Fri" ∨ s = "Sat" ∨ s = "Sun"

/-- A nonempty all-digit string, to a number. -/
def parseNat? (s : String) : Option Nat :=
  if s.data ≠ [] ∧ s.data.all Char.isDigit then some (digitsVal s.data) else none

/-- Gregorian leap-year test. -/
def isLeapYear (y : Int) : Bool := (y % 4 = 0 ∧ y % 100 ≠ 0) ∨ y % 400 = 0

/-- Days in a month, for date validation. -/
def daysInMonth (y : Int) (m : Nat) : Nat :=
  if m = 2 then (if isLeapYear y then 29 else 28)
  else if m = 4 ∨ m = 6 ∨ m = 9 ∨ m = 11 then 30
  else 31

/-- Days from the civil epoch 1970-01-01 (the days-from-civil algorithm). -/
def daysFromCivil (y : Int) (m : Nat) (d : Nat) : Int :=
  let yAdj : Int := if m ≤ 2 then y - 1 else y
  let era : Int := (if 0 ≤ yAdj then yAdj else yAdj - 399) / 400
  let yoe : Int := yAdj - era * 400
  let mp : Int := if 2 < m then (m : Int) - 3 else (m : Int) + 9
  let doy : Int := (153 * mp + 2) / 5 + (d : Int) - 1
  let doe : Int := yoe * 365 + yoe / 4 - yoe / 100 + doy
  era * 146097 + doe - 719468

/-- Zone offset in seconds from a +HHMM or -HHMM token. -/
def tzOffset? (s : String) : Option Int :=
  match s.data with
  | sign :: h1 :: h2 :: m1 :: m2 :: [] =>
    if (sign = '+' ∨ sign = '-') ∧ [h1, h2, m1, m2].all Char.isDigit then
      let hh := digitsVal [h1, h2]
      let mm := digitsVal [m1, m2]
      if mm ≤ 59 then
        let mag : Int := (hh : Int) * 3600 + (mm : Int) * 60
        some (if sign = '-' then -mag else mag)
      else none
    else none
  | _ => none

/-- HH:MM:SS to seconds-within-day, with strptime range checks. -/
def timeOfDay? (s : String) : Option Nat :=
  match s.splitOn ":" with
  | [hh, mm, ss] =>
    match parseNat? hh, parseNat? mm, parseNat? ss with
    | some h, some mi, some sec =>
      if h ≤ 23 ∧ mi ≤ 59 ∧ sec ≤ 61 then some (h * 3600 + mi * 60 + sec) else none
    | _, _, _ => none
  | _ => none

/-- strptime with the fixed pattern, then the unix timestamp, as an
integer number of seconds; none models ValueError. -/
def strptimeRfc2822 (s : String) : Option Int :=
  match s.splitOn " " with
  | [dayTok, dTok, monTok, yTok, timeTok, tzTok] =>
    if dayTok.endsWith "," ∧ dayAbbrevOk (dayTok.dropRight 1) then
      match parseNat? dTok, monthNum monTok, parseNat? yTok, timeOfDay? timeTok, tzOffset? tzTok with
      | some d, some m, some y, some tod, some off =>
        if 1 ≤ d ∧ d ≤ daysInMonth (y : Int) m then
          some (daysFromCivil (y : Int) m d * 86400 + (tod : Int) - off)
        else none
      | _, _, _, _, _ => none
    else none
  | _ => none

/-! ### Data model -/

/-- One item element of a Torznab result feed, restricted to the fields
jackett.py reads. For a text child read through findtext, none means the
element is absent while some of the empty string means present with empty
text. For a namespaced attr element, the outer Option is presence of the
element and the inner Option is presence of its value attribute. -/
structure RawItem where
  title : Option String
  jackettindexer : Option String
  magnetEl : Option (Option String)
  link : Option String
  size : Option String
  seedsEl : Option (Option String)
  peersEl : Option (Option String)
  pubDate : Option String
  comments : Option String
  guid : Option String
deriving DecidableEq

/-- The normalized result record handed to prettyPrinter. -/
structure Result where
  name : String
  link : String
  size : String
  seeds : Int
  leech : Int
  engine_url : String
  desc_link : String
  pub_date : Int
deriving DecidableEq

/-- The synthetic record built by jackett handle error. -/
structure ErrorRecord where
  seeds : Int
  size : Int
  leech : Int
  engine_url : String
  link : String
  desc_link : String
  name : String
deriving DecidableEq

/-- One record written to the output sink: either a normalized search
result or a synthetic error record. -/
inductive Emission where
  | result (r : Result)
  | error (e : ErrorRecord)
deriving DecidableEq

/-- The configuration facts the search path depends on, as loaded by the
external configuration loader; configPath carries the CONFIG_PATH string
interpolated into error messages. -/
structure Config where
  malformed : Bool
  apiKey : String
  threadCount : Int
  trackerFirst : Bool
  url : String
  configPath : String
deriving DecidableEq

/-! ### Item normalizer -/

/-- Rendering of the tracker name inside the f-string: Python renders the
missing value None as the text None. -/
def trackerStr (item : RawItem) : String :=
  match item.jackettindexer with
  | none => "None"
  | some s => s

/-- Display-name composition per the tracker-first flag. -/
def composeName (trackerFirst : Bool) (tracker title : String) : String :=
  if trackerFirst then "[" ++ tracker ++ "] " ++ title else title ++ " [" ++ tracker ++ "]"

/-- Link resolution: the namespaced magneturl attr value when the attr
element is present, else the plain link field. -/
def resolvedLink (item : RawItem) : Option String :=
  match item.magnetEl with
  | some v => v
  | none => item.link

/-- Value of a namespaced integer attr: absent element gives the sentinel
-1; a present element whose value attribute is missing raises (int of
None), as does a non-numeric value; none models the raised exception that
drops the whole item. -/
def attrInt (el : Option (Option String)) : Option Int :=
  match el with
  | none => some (-1)
  | some none => none
  | some (some v) => pyInt? v

/-- Description link: a nonempty comments field, else the guid field with
empty-string default (Python or-chaining on findtext results). -/
def descLinkOf (item : RawItem) : String :=
  match item.comments with
  | some s => if s = "" then item.guid.getD "" else s
  | none => item.guid.getD ""

/-- Publish date with the sentinel -1 on absence, emptiness, or any
parse failure. -/
def pubDateOf (s? : Option String) : Int :=
  match s? with
  | none => -1
  | some s => if s = "" then -1 else (strptimeRfc2822 s).getD (-1)

/-- jackett parse and print item: normalizes one feed item, returning
none exactly when the code drops the item (missing title or link, or an
exception raised while reading the integer attrs, caught at the item
boundary). -/
def parse_and_print_item (cfg : Config) (item : RawItem) : Option Result :=
  match item.title with
  | none => none
  | some title =>
    if title = "" then none
    else
      match resolvedLink item with
      | none => none
      | some link =>
        if link = "" then none
        else
          match attrInt item.seedsEl, attrInt item.peersEl with
          | some seeds, some peers =>
            some { name := escapePipes (composeName cfg.trackerFirst (trackerStr item) title)
                   link := link
                   size := (item.size.getD "-1") ++ " B"
                   seeds := seeds
                   leech := if seeds ≠ -1 ∧ peers ≠ -1 then peers - seeds else -1
                   engine_url := cfg.url
                   desc_link := descLinkOf item
                   pub_date := pubDateOf item.pubDate }
          | _, _ => none

/-! ### Fetcher -/

/-- Outcome of the one HTTP request inside jackett fetch url, abstracted
at the urllib boundary: a decoded body, an HTTPError carrying its status
code and its url attribute, or any other exception (timeout, connection
error, and so on). -/
inductive HttpOutcome where
  | success (body : String)
  | httpError (code : Nat) (url : String)
  | failure
deriving DecidableEq

/-- jackett fetch url: the body on success, the error url on status 302,
and None (here none) on every other outcome; no exception escapes. -/
def fetch_url : HttpOutcome → Option String
  | .success body => some body
  | .httpError code u => if code = 302 then some u else none
  | .failure => none

/-! ### Search orchestration -/

/-- The indexer-list response as seen after fetch plus XML parse:
noData when fetch url yields a falsy value (None or the empty string),
malformedXml when ElementTree raises ParseError, else the id attributes
of the indexer elements in document order. -/
inductive GatewayResponse where
  | noData
  | malformedXml
  | indexerIds (ids : List String)
deriving DecidableEq

/-- A per-indexer feed response as seen after fetch plus XML parse:
falsy fetch result, XML parse error, a document without a channel
element, or the channel item elements in order. -/
inductive FeedResponse where
  | noData
  | parseError
  | noChannel
  | channel (items : List RawItem)

/-- The remote world one search call observes: the indexer-list response
and, per indexer id queried, that feed response. -/
structure Env where
  indexerList : GatewayResponse
  feedOf : String → FeedResponse

/-- jackett handle error: the synthetic record with sentinel numeric
fields and a name embedding the cause, the config path, and the query. -/
def handle_error (cfg : Config) (msg q : String) : ErrorRecord :=
  { seeds := -1
    size := -1
    leech := -1
    engine_url := cfg.url
    link := cfg.url
    desc_link := "https://github.com/qbittorrent/search-plugins/wiki/How-to-configure-Jackett-plugin"
    name := "Jackett: " ++ msg ++ "! Right-click and open description. Conf: \x27" ++
      cfg.configPath ++ "\x27. Search: \x27" ++ q ++ "\x27" }

/-- jackett search indexer: one feed fetch for the given indexer id; a
falsy or unparsable response or a missing channel element contributes no
records; otherwise every item that normalizes successfully, in feed
order. -/
def search_indexer (cfg : Config) (env : Env) (indexerId : String) : List Result :=
  match env.feedOf indexerId with
  | .noData => []
  | .parseError => []
  | .noChannel => []
  | .channel items => items.filterMap (parse_and_print_item cfg)

/-- Observable trace of one jackett search call: the records written to
the sink, the number of HTTP fetches performed, the indexer ids passed to
search indexer, and the thread-pool size when a pool is created. In the
pooled branch the interleaving of concurrent workers is nondeterministic;
the trace fixes dispatch order, and no theorem below depends on the
relative order of records of different workers. -/
structure SearchTrace where
  emissions : List Emission
  networkCalls : Nat
  workerCalls : List String
  poolSize : Option Int
deriving DecidableEq

/-- jackett search: config checks, indexer-list resolution with its error
reporting (from jackett get configured indexers), then either the pooled
per-indexer fan-out or the sequential single call with the all sentinel.
Each dispatched worker performs exactly one feed fetch. -/
def search (cfg : Config) (env : Env) (what : String) : SearchTrace :=
  let q := pyUnquote what
  if cfg.malformed then
    { emissions := [.error (handle_error cfg "malformed configuration file" q)]
      networkCalls := 0, workerCalls := [], poolSize := none }
  else if cfg.apiKey = "YOUR_API_KEY_HERE" then
    { emissions := [.error (handle_error cfg "API key is not configured" q)]
      networkCalls := 0, workerCalls := [], poolSize := none }
  else
    match env.indexerList with
    | .noData =>
      { emissions := [.error (handle_error cfg "could not connect to Jackett to get indexer list" q)]
        networkCalls := 1, workerCalls := [], poolSize := none }
    | .malformedXml =>
      { emissions := [.error (handle_error cfg "failed to parse Jackett indexer list (invalid XML)" q)]
        networkCalls := 1, workerCalls := [], poolSize := none }
    | .indexerIds ids =>
      if ids = [] then
        { emissions := [], networkCalls := 1, workerCalls := [], poolSize := none }
      else if cfg.threadCount > 1 ∧ ids.length > 1 then
        { emissions := (ids.map (fun i => (search_indexer cfg env i).map Emission.result)).flatten
          networkCalls := 1 + ids.length
          workerCalls := ids
          poolSize := some (min (ids.length : Int) cfg.threadCount) }
      else
        { emissions := (search_indexer cfg env "all").map Emission.result
          networkCalls := 2
          workerCalls := ["all"]
          poolSize := none }

/-! ### Deduplicator

Modelled from the spec: the Deduplicator of design sections 4.6 and 3 is
not part of the plugin file under review (jackett.py emits every record
directly); the definitions below follow the specification words. The key
is the 40-hex-character lowercased info-hash extracted from a magnet
link when present, else the raw link string verbatim; candidates are
processed in order against a mapping from key to best-seen record,
replacing only on strictly greater seeds, and survivors keep the
insertion order of first key occurrence. -/

/-- Hex-digit test for info-hash characters. -/
def isHexChar (c : Char) : Bool :=
  c.isDigit ∨ (97 ≤ c.toNat ∧ c.toNat ≤ 102) ∨ (65 ≤ c.toNat ∧ c.toNat ≤ 70)

/-- The marker of the info-hash parameter inside a magnet URI. -/
def btihTag : List Char := "xt=urn:btih:".data

/-- Modelled from the spec: the characters following the first
occurrence of the info-hash marker, if any. -/
def afterBtih : List Char → Option (List Char)
  | [] => none
  | c :: cs =>
    if btihTag.isPrefixOf (c :: cs) then some ((c :: cs).drop btihTag.length)
    else afterBtih cs

/-- Modelled from the spec: the 40-hex-character lowercased info-hash of
a magnet link, when extractable. -/
def extractInfoHash (link : String) : Option String :=
  if "magnet:".data.isPrefixOf link.data then
    match afterBtih link.data with
    | none => none
    | some rest =>
      let h := rest.take 40
      if h.length = 40 ∧ h.all isHexChar then some (String.mk (h.map Char.toLower)) else none
  else none

/-- Modelled from the spec: the deduplication key of a record — the
extracted info-hash, else the raw link verbatim. -/
def dedupKey (r : Result) : String := (extractInfoHash r.link).getD r.link

/-- Modelled from the spec: processing one candidate against the stored
mapping (kept as a list in first-occurrence order): a new key is
appended; an existing key keeps its stored record unless the candidate
has strictly greater seeds. -/
def dedupeStep (acc : List Result) (c : Result) : List Result :=
  if acc.any (fun r => dedupKey r = dedupKey c) then
    acc.map (fun r => if dedupKey r = dedupKey c ∧ r.seeds < c.seeds then c else r)
  else acc ++ [c]

/-- Modelled from the spec: the Deduplicator over a candidate list. -/
def dedupe (l : List Result) : List Result := l.foldl dedupeStep []

/-! ### Concrete fixtures used by witnesses and counterexamples -/

/-- A well-formed configuration with a set credential. -/
def cfgX : Config :=
  { malformed := false, apiKey := "k", threadCount := 20, trackerFirst := false,
    url := "http://127.0.0.1:9117", configPath := "jackett.json" }

/-- The configuration marked malformed by the loader. -/
def cfgMal : Config := { cfgX with malformed := true }

/-- A configuration with concurrency configured off. -/
def cfgSeq : Config := { cfgX with threadCount := 1 }

/-- An environment whose gateway is unreachable. -/
def envW : Env := { indexerList := .noData, feedOf := fun _ => .noData }

/-- An environment resolving two indexers. -/
def envTwo : Env := { indexerList := .indexerIds ["alpha", "beta"], feedOf := fun _ => .noData }

/-- An environment whose indexer list is well-formed and empty. -/
def envZero : Env := { indexerList := .indexerIds [], feedOf := fun _ => .noData }

/-- A feed item whose size element holds a non-numeric string. -/
def itemC3 : RawItem :=
  { title := some "t", jackettindexer := some "ix", magnetEl := none, link := some "http://x",
    size := some "banana", seedsEl := none, peersEl := none, pubDate := none,
    comments := none, guid := none }

/-- The same item with the size element absent. -/
def itemAbsent : RawItem := { itemC3 with size := none }

/-- The record itemAbsent normalizes to. -/
def rC3 : Result :=
  { name := "t [ix]", link := "http://x", size := "-1 B", seeds := -1, leech := -1,
    engine_url := cfgX.url, desc_link := "", pub_date := -1 }

/-- The magnet link of the specification example, with a 40-hex hash. -/
def magnetC7 : String := "magnet:?xt=urn:btih:aabbccddeeff00112233445566778899aabbccdd&dn=x"

/-- A feed item advertising both a magnet attr and a plain link. -/
def itemC7 : RawItem :=
  { title := some "t", jackettindexer := some "ix", magnetEl := some (some magnetC7),
    link := some "http://example/t.torrent", size := none, seedsEl := none, peersEl := none,
    pubDate := none, comments := none, guid := none }

/-- A feed item whose seeders attr carries a negative value below -1. -/
def itemC8 : RawItem :=
  { title := some "t", jackettindexer := none, magnetEl := none, link := some "l",
    size := none, seedsEl := some (some "-2"), peersEl := some (some "20"),
    pubDate := none, comments := none, guid := none }

/-- The specification example: seeders 8, peers 20. -/
def itemC8W : RawItem := { itemC8 with seedsEl := some (some "8"), peersEl := some (some "20") }

/-- The record itemC8W normalizes to. -/
def rC8W : Result :=
  { name := "t [None]", link := "l", size := "-1 B", seeds := 8, leech := 12,
    engine_url := cfgX.url, desc_link := "", pub_date := -1 }

/-- A feed item with no title element. -/
def itemTitleless : RawItem :=
  { title := none, jackettindexer := none, magnetEl := none, link := some "l",
    size := none, seedsEl := none, peersEl := none, pubDate := none,
    comments := none, guid := none }

/-- A magnet link for the dedup example, hash written in upper case. -/
def magnetUpper : String := "magnet:?xt=urn:btih:AABBCCDDEEFF00112233445566778899AABBCCDD&dn=y"

/-- A candidate record builder for dedup examples. -/
def mkRes (lnk : String) (sds : Int) : Result :=
  { name := "n", link := lnk, size := "-1 B", seeds := sds, leech := -1,
    engine_url := cfgX.url, desc_link := "", pub_date := -1 }

/-- Candidate with seeds 5, magnet link with the shared hash. -/
def w5 : Result := mkRes magnetC7 5

/-- Candidate with seeds 12, a different magnet link with the same hash. -/
def w12 : Result := mkRes magnetUpper 12

/-! ### Helper lemmas -/

/-- String append acts as list append on the character data. -/
theorem str_data_append (a b : String) : (a ++ b).data = a.data ++ b.data := by
  cases a
  cases b
  rfl

/-- A string with nonempty data is not the empty string. -/
theorem str_ne_empty_of_data (s : String) (h : s.data ≠ []) : s ≠ "" := by
  intro he
  subst he
  exact h (by decide)

/-- Single-character replacement never empties a nonempty list. -/
theorem replaceChar_cons_ne_nil (x : Char) (xs : List Char) :
    replaceChar '|' "%7C".data (x :: xs) ≠ [] := by
  simp only [replaceChar]
  intro hcontra
  rcases List.append_eq_nil.mp hcontra with ⟨h1, _⟩
  by_cases hx : x = '|'
  · rw [if_pos hx] at h1
    exact absurd h1 (by decide)
  · rw [if_neg hx] at h1
    exact absurd h1 (by simp)

/-- Pipe escaping never empties a nonempty string. -/
theorem escapePipes_ne_empty (s : String) (h : s.data ≠ []) : escapePipes s ≠ "" := by
  apply str_ne_empty_of_data
  show replaceChar '|' "%7C".data s.data ≠ []
  cases hd : s.data with
  | nil => exact absurd hd h
  | cons x xs => exact replaceChar_cons_ne_nil x xs

/-- The composed display name always has nonempty data (it carries the
bracketed tracker part regardless of the title). -/
theorem composeName_data_ne_nil (tf : Bool) (tracker title : String) :
    (composeName tf tracker title).data ≠ [] := by
  unfold composeName
  cases tf
  · simp only [Bool.false_eq_true, if_false, str_data_append]
    intro hcontra
    rcases List.append_eq_nil.mp hcontra with ⟨_, h2⟩
    exact absurd h2 (by decide)
  · simp only [if_true, str_data_append]
    intro hcontra
    rcases List.append_eq_nil.mp hcontra with ⟨h1, _⟩
    rcases List.append_eq_nil.mp h1 with ⟨h3, _⟩
    rcases List.append_eq_nil.mp h3 with ⟨h4, _⟩
    exact absurd h4 (by decide)

/-- Shape of every successful normalization: the guards that were passed
and the exact record produced. -/
theorem parse_some_shape (cfg : Config) (item : RawItem) (r : Result)
    (h : parse_and_print_item cfg item = some r) :
    ∃ title lnk seeds peers,
      item.title = some title ∧ title ≠ "" ∧
      resolvedLink item = some lnk ∧ lnk ≠ "" ∧
      attrInt item.seedsEl = some seeds ∧ attrInt item.peersEl = some peers ∧
      r = { name := escapePipes (composeName cfg.trackerFirst (trackerStr item) title)
            link := lnk
            size := (item.size.getD "-1") ++ " B"
            seeds := seeds
            leech := if seeds ≠ -1 ∧ peers ≠ -1 then peers - seeds else -1
            engine_url := cfg.url
            desc_link := descLinkOf item
            pub_date := pubDateOf item.pubDate } := by
  cases htitle : item.title with
  | none => simp [parse_and_print_item, htitle] at h
  | some title =>
    by_cases hne : title = ""
    · simp [parse_and_print_item, htitle, hne] at h
    · cases hlink : resolvedLink item with
      | none => simp [parse_and_print_item, htitle, hne, hlink] at h
      | some lnk =>
        by_cases hlinkne : lnk = ""
        · simp [parse_and_print_item, htitle, hne, hlink, hlinkne] at h
        · cases hseeds : attrInt item.seedsEl with
          | none => simp [parse_and_print_item, htitle, hne, hlink, hlinkne, hseeds] at h
          | some seeds =>
            cases hpeers : attrInt item.peersEl with
            | none => simp [parse_and_print_item, htitle, hne, hlink, hlinkne, hseeds, hpeers] at h
            | some peers =>
              simp only [parse_and_print_item, htitle, hlink, hseeds, hpeers,
                if_neg hne, if_neg hlinkne] at h
              exact ⟨title, lnk, seeds, peers, rfl, hne, rfl, hlinkne, rfl, rfl,
                (Option.some.inj h).symm⟩

/-- An item with a missing or empty title is dropped. -/
theorem parse_none_of_bad_title (cfg : Config) (item : RawItem)
    (h : item.title = none ∨ item.title = some "") :
    parse_and_print_item cfg item = none := by
  rcases h with h | h <;> simp [parse_and_print_item, h]

/-- An item whose link resolution yields nothing usable is dropped. -/
theorem parse_none_of_bad_link (cfg : Config) (item : RawItem)
    (h : resolvedLink item = none ∨ resolvedLink item = some "") :
    parse_and_print_item cfg item = none := by
  cases htitle : item.title with
  | none => simp [parse_and_print_item, htitle]
  | some title =>
    by_cases hne : title = ""
    · simp [parse_and_print_item, htitle, hne]
    · rcases h with h | h <;> simp [parse_and_print_item, htitle, hne, h]

/-! ### Claim theorems -/

/-- Claim C3, counterexample: a feed item whose size element contains the
non-numeric string banana is emitted with size banana B — the raw string
with the unit suffix — not with the integer -1, so the normalizer does
not parse the size field to an integer. -/
theorem C3_size_counterexample :
    (parse_and_print_item cfgX itemC3).map Result.size = some "banana B" ∧
    (parse_and_print_item cfgX itemC3).map Result.size ≠ some "-1 B" := by
  constructor <;> decide

/-- Claim C3, amended: the emitted size string is the raw size text with
the suffix B appended, the text defaulting to -1 only when the size
element is absent; no integer parsing or numeric validation occurs. -/
theorem C3_size_amended (cfg : Config) (item : RawItem) (r : Result)
    (h : parse_and_print_item cfg item = some r) :
    r.size = (item.size.getD "-1") ++ " B" ∧ (item.size = none → r.size = "-1 B") := by
  obtain ⟨title, lnk, seeds, peers, _, _, _, _, _, _, rfl⟩ := parse_some_shape cfg item r h
  refine ⟨rfl, fun hnone => ?_⟩
  simp only [hnone, Option.getD_none]
  decide

/-- Claim C3 amended, witness at an item with the size element absent. -/
theorem C3_size_amended_witness :
    parse_and_print_item cfgX itemAbsent = some rC3 ∧
    (rC3.size = (itemAbsent.size.getD "-1") ++ " B" ∧ (itemAbsent.size = none → rC3.size = "-1 B")) :=
  ⟨by decide, C3_size_amended cfgX itemAbsent rC3 (by decide)⟩

/-- Claim C6, counterexample: an HTTP 301 redirect response makes
fetch url return the no-data value, not the redirect target URL — only
status 302 is treated as a redirect. -/
theorem C6_redirect_counterexample :
    fetch_url (.httpError 301 "http://target") = none ∧
    fetch_url (.httpError 301 "http://target") ≠ some "http://target" := by
  constructor <;> decide

/-- Claim C6, amended: fetch url returns the error URL as its result
exactly on an HTTP error with status 302; every other failure (other
status codes, including other redirect codes, and any other exception)
returns the no-data value, and a success returns the body; no exception
reaches the caller (the function is total into Option). -/
theorem C6_fetch_amended (c : Nat) (u : String) (h : c ≠ 302) :
    fetch_url (.httpError 302 u) = some u ∧
    fetch_url (.httpError c u) = none ∧
    fetch_url .failure = none ∧
    ∀ b, fetch_url (.success b) = some b := by
  refine ⟨rfl, ?_, rfl, fun b => rfl⟩
  simp [fetch_url, h]

/-- Claim C6 amended, witness at status 301. -/
theorem C6_fetch_amended_witness :
    (301 : Nat) ≠ 302 ∧
    (fetch_url (.httpError 302 "http://target") = some "http://target" ∧
     fetch_url (.httpError 301 "http://target") = none ∧
     fetch_url .failure = none ∧
     ∀ b, fetch_url (.success b) = some b) :=
  ⟨by decide, C6_fetch_amended 301 "http://target" (by decide)⟩

/-- Claim C7: the normalized link is the namespaced magneturl attr value
when that attr is present, else the plain link field; every emitted
record carries exactly the resolved link, and an item whose resolution
yields no nonempty link is dropped. -/
theorem C7_link_resolution (cfg : Config) (item : RawItem) :
    (∀ v, item.magnetEl = some (some v) → resolvedLink item = some v) ∧
    (item.magnetEl = none → resolvedLink item = item.link) ∧
    (∀ r, parse_and_print_item cfg item = some r →
      some r.link = resolvedLink item ∧ r.link ≠ "") ∧
    ((resolvedLink item = none ∨ resolvedLink item = some "") →
      parse_and_print_item cfg item = none) := by
  refine ⟨fun v hv => ?_, fun hv => ?_, fun r h => ?_, parse_none_of_bad_link cfg item⟩
  · simp [resolvedLink, hv]
  · simp [resolvedLink, hv]
  · obtain ⟨title, lnk, seeds, peers, _, _, hlink, hlinkne, _, _, rfl⟩ :=
      parse_some_shape cfg item r h
    exact ⟨hlink.symm, hlinkne⟩

/-- Claim C7, witness at the specification example: magnet attr and plain
link both present, the magnet value is selected. -/
theorem C7_link_resolution_witness :
    itemC7.magnetEl = some (some magnetC7) ∧ resolvedLink itemC7 = some magnetC7 :=
  ⟨rfl, (C7_link_resolution cfgX itemC7).1 magnetC7 rfl⟩

/-- Claim C8, counterexample: a feed item with seeders attr -2 and peers
attr 20 is emitted with seeds -2 and leech 22, although -2 is not a known
(nonnegative) seed count — the code tests only against the sentinel -1,
so the claimed leech = -1 for not-both-known fields fails. -/
theorem C8_leech_counterexample :
    (parse_and_print_item cfgX itemC8).map (fun r => (r.seeds, r.leech)) = some (-2, 22) ∧
    ¬ ((0 : Int) ≤ -2) ∧ (22 : Int) ≠ -1 := by
  refine ⟨by decide, by decide, by decide⟩

/-- Claim C8, amended: seeds and peers each default to -1 when the attr
element is absent, and leech equals peers minus seeds exactly when both
parsed values differ from the sentinel -1 (not: when both are
nonnegative); when either attr is absent, leech is -1. -/
theorem C8_leech_amended (cfg : Config) (item : RawItem) (r : Result)
    (h : parse_and_print_item cfg item = some r) :
    (item.seedsEl = none → r.seeds = -1) ∧
    (∀ s p, attrInt item.seedsEl = some s → attrInt item.peersEl = some p →
      r.seeds = s ∧ r.leech = if s ≠ -1 ∧ p ≠ -1 then p - s else -1) ∧
    ((item.seedsEl = none ∨ item.peersEl = none) → r.leech = -1) := by
  obtain ⟨title, lnk, seeds, peers, _, _, _, _, hseeds, hpeers, rfl⟩ :=
    parse_some_shape cfg item r h
  refine ⟨fun habs => ?_, fun s p hs hp => ?_, fun habs => ?_⟩
  · rw [habs] at hseeds
    exact (Option.some.inj hseeds).symm
  · rw [hseeds] at hs
    rw [hpeers] at hp
    rw [Option.some.inj hs, Option.some.inj hp]
    exact ⟨rfl, rfl⟩
  · rcases habs with habs | habs
    · rw [habs] at hseeds
      have : seeds = -1 := (Option.some.inj hseeds).symm
      simp [this]
    · rw [habs] at hpeers
      have : peers = -1 := (Option.some.inj hpeers).symm
      simp [this]

/-- Claim C8 amended, witness at the specification example seeders 8 and
peers 20, giving leech 12. -/
theorem C8_leech_amended_witness :
    parse_and_print_item cfgX itemC8W = some rC8W ∧
    rC8W.seeds = 8 ∧ rC8W.leech = 12 ∧
    ((itemC8W.seedsEl = none → rC8W.seeds = -1) ∧
     (∀ s p, attrInt itemC8W.seedsEl = some s → attrInt itemC8W.peersEl = some p →
       rC8W.seeds = s ∧ rC8W.leech = if s ≠ -1 ∧ p ≠ -1 then p - s else -1) ∧
     ((itemC8W.seedsEl = none ∨ itemC8W.peersEl = none) → rC8W.leech = -1)) :=
  ⟨by decide, rfl, rfl, C8_leech_amended cfgX itemC8W rC8W (by decide)⟩

/-- Claim C9: the worker never emits a record with an empty name or an
empty link, and an item missing a title or missing any usable link is
dropped by the normalizer (returning nothing, hence silently — no error
record is produced for it). -/
theorem C9_nonempty_invariant (cfg : Config) (env : Env) (indexerId : String) :
    (∀ r ∈ search_indexer cfg env indexerId, r.name ≠ "" ∧ r.link ≠ "") ∧
    (∀ item : RawItem,
      (item.title = none ∨ item.title = some "" ∨
       resolvedLink item = none ∨ resolvedLink item = some "") →
      parse_and_print_item cfg item = none) := by
  constructor
  · intro r hr
    unfold search_indexer at hr
    rcases hfeed : env.feedOf indexerId with _ | _ | _ | items <;> rw [hfeed] at hr
    · simp at hr
    · simp at hr
    · simp at hr
    · obtain ⟨item, _, hsome⟩ := List.mem_filterMap.mp hr
      obtain ⟨title, lnk, seeds, peers, _, _, _, hlinkne, _, _, rfl⟩ :=
        parse_some_shape cfg item r hsome
      exact ⟨escapePipes_ne_empty _ (composeName_data_ne_nil _ _ _), hlinkne⟩
  · intro item hbad
    rcases hbad with h | h | h | h
    · exact parse_none_of_bad_title cfg item (Or.inl h)
    · exact parse_none_of_bad_title cfg item (Or.inr h)
    · exact parse_none_of_bad_link cfg item (Or.inl h)
    · exact parse_none_of_bad_link cfg item (Or.inr h)

/-- Claim C9, witness: a titleless item is dropped by the normalizer. -/
theorem C9_nonempty_invariant_witness :
    itemTitleless.title = none ∧ parse_and_print_item cfgX itemTitleless = none :=
  ⟨rfl, (C9_nonempty_invariant cfgX envW "all").2 itemTitleless (Or.inl rfl)⟩

/-- Sentinel fields and name structure of the synthetic error record:
the name embeds the cause and echoes the query. -/
theorem handle_error_props (cfg : Config) (msg q : String) :
    (handle_error cfg msg q).seeds = -1 ∧ (handle_error cfg msg q).size = -1 ∧
    (handle_error cfg msg q).leech = -1 ∧
    ∃ pre mid post, (handle_error cfg msg q).name.data =
      pre ++ (msg.data ++ (mid ++ (q.data ++ post))) := by
  refine ⟨rfl, rfl, rfl,
    "Jackett: ".data,
    "! Right-click and open description. Conf: \x27".data ++
      (cfg.configPath.data ++ "\x27. Search: \x27".data),
    "\x27".data, ?_⟩
  simp only [handle_error, str_data_append, List.append_assoc]

/-- Claim C4: with a malformed configuration or the placeholder
credential, search emits exactly one synthetic error record (numeric
fields at the sentinel -1, the name embedding the human-readable cause
and echoing the decoded search term) and performs zero network calls. -/
theorem C4_config_error (cfg : Config) (env : Env) (what : String)
    (h : cfg.malformed = true ∨ cfg.apiKey = "YOUR_API_KEY_HERE") :
    (search cfg env what).networkCalls = 0 ∧
    (search cfg env what).emissions.length = 1 ∧
    ∃ e, (search cfg env what).emissions = [Emission.error e] ∧
      e.seeds = -1 ∧ e.size = -1 ∧ e.leech = -1 ∧
      ∃ cause pre mid post,
        (cause = "malformed configuration file" ∨ cause = "API key is not configured") ∧
        e.name.data = pre ++ (cause.data ++ (mid ++ ((pyUnquote what).data ++ post))) := by
  by_cases hm : cfg.malformed = true
  · have hs : search cfg env what =
      { emissions := [.error (handle_error cfg "malformed configuration file" (pyUnquote what))],
        networkCalls := 0, workerCalls := [], poolSize := none } := by
      simp [search, hm]
    rw [hs]
    obtain ⟨h1, h2, h3, pre, mid, post, hname⟩ :=
      handle_error_props cfg "malformed configuration file" (pyUnquote what)
    exact ⟨rfl, rfl, _, rfl, h1, h2, h3,
      "malformed configuration file", pre, mid, post, Or.inl rfl, hname⟩
  · have hkey : cfg.apiKey = "YOUR_API_KEY_HERE" := h.resolve_left hm
    have hs : search cfg env what =
      { emissions := [.error (handle_error cfg "API key is not configured" (pyUnquote what))],
        networkCalls := 0, workerCalls := [], poolSize := none } := by
      simp [search, hm, hkey]
    rw [hs]
    obtain ⟨h1, h2, h3, pre, mid, post, hname⟩ :=
      handle_error_props cfg "API key is not configured" (pyUnquote what)
    exact ⟨rfl, rfl, _, rfl, h1, h2, h3,
      "API key is not configured", pre, mid, post, Or.inr rfl, hname⟩

/-- Claim C4, witness at a malformed configuration. -/
theorem C4_config_error_witness :
    (cfgMal.malformed = true ∨ cfgMal.apiKey = "YOUR_API_KEY_HERE") ∧
    ((search cfgMal envW "a%20b").networkCalls = 0 ∧
     (search cfgMal envW "a%20b").emissions.length = 1 ∧
     ∃ e, (search cfgMal envW "a%20b").emissions = [Emission.error e] ∧
       e.seeds = -1 ∧ e.size = -1 ∧ e.leech = -1 ∧
       ∃ cause pre mid post,
         (cause = "malformed configuration file" ∨ cause = "API key is not configured") ∧
         e.name.data = pre ++ (cause.data ++ (mid ++ ((pyUnquote "a%20b").data ++ post)))) :=
  ⟨Or.inl rfl, C4_config_error cfgMal envW "a%20b" (Or.inl rfl)⟩

/-- Claim C5: with a valid configuration, an indexer-list response that
is absent (falsy) or not well-formed XML makes search emit exactly one
synthetic error record and dispatch zero per-indexer queries; only the
one indexer-list fetch happens, so the failure is reported once per
search, not once per indexer. -/
theorem C5_indexer_list_failure (cfg : Config) (env : Env) (what : String)
    (hm : cfg.malformed = false) (hk : cfg.apiKey ≠ "YOUR_API_KEY_HERE")
    (hr : env.indexerList = .noData ∨ env.indexerList = .malformedXml) :
    (search cfg env what).emissions.length = 1 ∧
    (∃ e, (search cfg env what).emissions = [Emission.error e]) ∧
    (search cfg env what).workerCalls = [] ∧
    (search cfg env what).networkCalls = 1 := by
  rcases hr with hr | hr
  · have hs : search cfg env what =
      { emissions := [.error (handle_error cfg
          "could not connect to Jackett to get indexer list" (pyUnquote what))],
        networkCalls := 1, workerCalls := [], poolSize := none } := by
      simp [search, hm, hk, hr]
    rw [hs]
    exact ⟨rfl, ⟨_, rfl⟩, rfl, rfl⟩
  · have hs : search cfg env what =
      { emissions := [.error (handle_error cfg
          "failed to parse Jackett indexer list (invalid XML)" (pyUnquote what))],
        networkCalls := 1, workerCalls := [], poolSize := none } := by
      simp [search, hm, hk, hr]
    rw [hs]
    exact ⟨rfl, ⟨_, rfl⟩, rfl, rfl⟩

/-- Claim C5, witness at an unreachable gateway. -/
theorem C5_indexer_list_failure_witness :
    cfgX.malformed = false ∧ cfgX.apiKey ≠ "YOUR_API_KEY_HERE" ∧
    (envW.indexerList = .noData ∨ envW.indexerList = .malformedXml) ∧
    ((search cfgX envW "q").emissions.length = 1 ∧
     (∃ e, (search cfgX envW "q").emissions = [Emission.error e]) ∧
     (search cfgX envW "q").workerCalls = [] ∧
     (search cfgX envW "q").networkCalls = 1) :=
  ⟨rfl, by decide, Or.inl rfl,
    C5_indexer_list_failure cfgX envW "q" rfl (by decide) (Or.inl rfl)⟩

/-- Claim C10: a well-formed indexer list with zero indexer elements
makes search terminate with zero emitted records — no synthetic error
record — and zero per-indexer queries (only the one list fetch). -/
theorem C10_empty_indexer_list (cfg : Config) (env : Env) (what : String)
    (hm : cfg.malformed = false) (hk : cfg.apiKey ≠ "YOUR_API_KEY_HERE")
    (hr : env.indexerList = .indexerIds []) :
    (search cfg env what).emissions = [] ∧
    (search cfg env what).workerCalls = [] ∧
    (search cfg env what).networkCalls = 1 := by
  simp [search, hm, hk, hr]

/-- Claim C10, witness at an empty indexer list. -/
theorem C10_empty_indexer_list_witness :
    cfgX.malformed = false ∧ cfgX.apiKey ≠ "YOUR_API_KEY_HERE" ∧
    envZero.indexerList = .indexerIds [] ∧
    ((search cfgX envZero "q").emissions = [] ∧
     (search cfgX envZero "q").workerCalls = [] ∧
     (search cfgX envZero "q").networkCalls = 1) :=
  ⟨rfl, by decide, rfl, C10_empty_indexer_list cfgX envZero "q" rfl (by decide) rfl⟩

/-- Claim C2, counterexample: with concurrency configured off
(thread count 1) and two resolved indexers alpha and beta, search
performs a single sequential worker invocation with the all sentinel id —
not one invocation per resolved indexer id with its own id. -/
theorem C2_sequential_counterexample :
    (search cfgSeq envTwo "q").workerCalls = ["all"] ∧
    (search cfgSeq envTwo "q").workerCalls.count "alpha" = 0 ∧
    (search cfgSeq envTwo "q").workerCalls ≠ ["alpha", "beta"] ∧
    (search cfgSeq envTwo "q").workerCalls ≠ ["beta", "alpha"] := by
  refine ⟨by decide, by decide, by decide, by decide⟩

/-- Claim C2, amended: when thread count exceeds 1 and more than one
indexer is resolved, search dispatches exactly one Query Worker
invocation per resolved indexer id (each with its own id, in order) with
a pool sized min(thread count, number of indexers); otherwise — a single
resolved indexer or concurrency configured off — it performs one
sequential invocation with the all sentinel id instead of per-id calls,
with no pool. -/
theorem C2_dispatch_amended (cfg : Config) (env : Env) (what : String) (ids : List String)
    (hm : cfg.malformed = false) (hk : cfg.apiKey ≠ "YOUR_API_KEY_HERE")
    (hids : env.indexerList = .indexerIds ids) (hne : ids ≠ []) :
    (cfg.threadCount > 1 ∧ ids.length > 1 →
      (search cfg env what).workerCalls = ids ∧
      (search cfg env what).poolSize = some (min (ids.length : Int) cfg.threadCount) ∧
      (search cfg env what).emissions =
        (ids.map (fun i => (search_indexer cfg env i).map Emission.result)).flatten) ∧
    (¬ (cfg.threadCount > 1 ∧ ids.length > 1) →
      (search cfg env what).workerCalls = ["all"] ∧
      (search cfg env what).poolSize = none ∧
      (search cfg env what).emissions = (search_indexer cfg env "all").map Emission.result) := by
  constructor
  · intro hc
    simp [search, hm, hk, hids, hne, hc]
  · intro hc
    simp [search, hm, hk, hids, hne, hc]

/-- Claim C2 amended, witness in the pooled branch with two indexers. -/
theorem C2_dispatch_amended_witness :
    cfgX.malformed = false ∧ cfgX.apiKey ≠ "YOUR_API_KEY_HERE" ∧
    envTwo.indexerList = .indexerIds ["alpha", "beta"] ∧
    (["alpha", "beta"] : List String) ≠ [] ∧
    ((cfgX.threadCount > 1 ∧ (["alpha", "beta"] : List String).length > 1 →
      (search cfgX envTwo "q").workerCalls = ["alpha", "beta"] ∧
      (search cfgX envTwo "q").poolSize =
        some (min ((["alpha", "beta"] : List String).length : Int) cfgX.threadCount) ∧
      (search cfgX envTwo "q").emissions =
        ((["alpha", "beta"] : List String).map
          (fun i => (search_indexer cfgX envTwo i).map Emission.result)).flatten) ∧
     (¬ (cfgX.threadCount > 1 ∧ (["alpha", "beta"] : List String).length > 1) →
      (search cfgX envTwo "q").workerCalls = ["all"] ∧
      (search cfgX envTwo "q").poolSize = none ∧
      (search cfgX envTwo "q").emissions =
        (search_indexer cfgX envTwo "all").map Emission.result)) :=
  ⟨rfl, by decide, rfl, by decide,
    C2_dispatch_amended cfgX envTwo "q" ["alpha", "beta"] rfl (by decide) rfl (by decide)⟩

/-- Processing a candidate whose key is already stored leaves the stored
key list unchanged (only the record behind that key may change). -/
theorem dedupeStep_keys_of_mem (acc : List Result) (c : Result)
    (h : dedupKey c ∈ acc.map dedupKey) :
    (dedupeStep acc c).map dedupKey = acc.map dedupKey := by
  obtain ⟨r0, hr0, hkey⟩ := List.mem_map.mp h
  have hany : (acc.any fun r => dedupKey r = dedupKey c) = true := by
    rw [List.any_eq_true]
    exact ⟨r0, hr0, by simp [hkey]⟩
  unfold dedupeStep
  rw [if_pos hany, List.map_map]
  apply List.map_congr_left
  intro a _
  by_cases hcond : dedupKey a = dedupKey c ∧ a.seeds < c.seeds
  · simp only [Function.comp_apply, if_pos hcond]
    exact hcond.1.symm
  · simp only [Function.comp_apply, if_neg hcond]

/-- Processing a candidate with a new key appends it. -/
theorem dedupeStep_of_new (acc : List Result) (c : Result)
    (h : dedupKey c ∉ acc.map dedupKey) :
    dedupeStep acc c = acc ++ [c] := by
  have hany : (acc.any fun r => dedupKey r = dedupKey c) = false := by
    by_contra hcon
    rw [Bool.not_eq_false, List.any_eq_true] at hcon
    obtain ⟨r, hr, hp⟩ := hcon
    rw [decide_eq_true_eq] at hp
    exact h (hp ▸ List.mem_map_of_mem dedupKey hr)
  simp [dedupeStep, hany]

/-- Fold invariant of the deduplicator: the stored key list stays nodup
and its key set is the union of the keys already stored and the keys of
the remaining candidates. -/
theorem dedupe_fold_keys (l : List Result) :
    ∀ acc : List Result, (acc.map dedupKey).Nodup →
      ((List.foldl dedupeStep acc l).map dedupKey).Nodup ∧
      ∀ k, k ∈ (List.foldl dedupeStep acc l).map dedupKey ↔
        (k ∈ acc.map dedupKey ∨ k ∈ l.map dedupKey) := by
  induction l with
  | nil =>
    intro acc hnd
    refine ⟨hnd, fun k => ?_⟩
    simp
  | cons c t ih =>
    intro acc hnd
    rw [List.foldl_cons]
    by_cases hmem : dedupKey c ∈ acc.map dedupKey
    · have hstep := dedupeStep_keys_of_mem acc c hmem
      have hrec := ih (dedupeStep acc c) (by rw [hstep]; exact hnd)
      refine ⟨hrec.1, fun k => ?_⟩
      rw [hrec.2 k, hstep, List.map_cons]
      constructor
      · rintro (hk | hk)
        · exact Or.inl hk
        · exact Or.inr (List.mem_cons_of_mem _ hk)
      · rintro (hk | hk)
        · exact Or.inl hk
        · rcases List.mem_cons.mp hk with hk | hk
          · exact Or.inl (hk ▸ hmem)
          · exact Or.inr hk
    · have hstep := dedupeStep_of_new acc c hmem
      have hnd' : ((dedupeStep acc c).map dedupKey).Nodup := by
        rw [hstep, List.map_append, List.nodup_append]
        refine ⟨hnd, by simp, ?_⟩
        intro a ha hb
        simp only [List.map_cons, List.map_nil, List.mem_singleton] at hb
        exact hmem (hb ▸ ha)
      have hrec := ih (dedupeStep acc c) hnd'
      refine ⟨hrec.1, fun k => ?_⟩
      rw [hrec.2 k, hstep, List.map_append, List.map_cons]
      simp only [List.mem_append, List.map_cons, List.map_nil, List.mem_singleton,
        List.mem_cons]
      tauto

/-- Claim C1 (spec-modelled Deduplicator): deduplication retains exactly
one record per key (the stored key list is nodup and covers exactly the
input keys); for two candidates sharing a key the survivor is the one
with strictly greater seeds and the earlier-seen one on ties; in
particular, with seeds 5 and 12 the survivor is the seeds-12 record
regardless of arrival order. -/
theorem C1_dedup_retention (l : List Result) (r1 r2 : Result)
    (hk : dedupKey r1 = dedupKey r2) (h5 : r1.seeds = 5) (h12 : r2.seeds = 12) :
    (((dedupe l).map dedupKey).Nodup ∧
      (∀ k, k ∈ (dedupe l).map dedupKey ↔ k ∈ l.map dedupKey)) ∧
    (∀ a b : Result, dedupKey a = dedupKey b →
      dedupe [a, b] = [if a.seeds < b.seeds then b else a]) ∧
    dedupe [r1, r2] = [r2] ∧ dedupe [r2, r1] = [r2] := by
  have pair : ∀ a b : Result, dedupKey a = dedupKey b →
      dedupe [a, b] = [if a.seeds < b.seeds then b else a] := by
    intro a b hab
    show List.foldl dedupeStep [] [a, b] = _
    rw [List.foldl_cons, List.foldl_cons, List.foldl_nil]
    rw [dedupeStep_of_new [] a (by simp)]
    have hany : (([] ++ [a] : List Result).any fun r => dedupKey r = dedupKey b) = true := by
      simp [hab]
    unfold dedupeStep
    rw [if_pos hany]
    simp only [List.nil_append, List.map_cons, List.map_nil]
    by_cases hlt : a.seeds < b.seeds
    · rw [if_pos ⟨hab, hlt⟩, if_pos hlt]
    · rw [if_neg (fun hcon => hlt hcon.2), if_neg hlt]
  have keys := dedupe_fold_keys l [] (by simp)
  refine ⟨⟨keys.1, fun k => by simpa using keys.2 k⟩, pair, ?_, ?_⟩
  · rw [pair r1 r2 hk, if_pos (show r1.seeds < r2.seeds by rw [h5, h12]; norm_num)]
  · rw [pair r2 r1 hk.symm, if_neg (show ¬ r2.seeds < r1.seeds by rw [h5, h12]; norm_num)]

/-- Claim C1, witness: two records with different magnet links carrying
the same extractable info-hash and seeds 5 and 12; the seeds-12 record
survives in both orders. -/
theorem C1_dedup_retention_witness :
    dedupKey w5 = dedupKey w12 ∧ w5.seeds = 5 ∧ w12.seeds = 12 ∧
    dedupKey w5 = "aabbccddeeff00112233445566778899aabbccdd" ∧
    ((((dedupe [w5]).map dedupKey).Nodup ∧
      (∀ k, k ∈ (dedupe [w5]).map dedupKey ↔ k ∈ [w5].map dedupKey)) ∧
     (∀ a b : Result, dedupKey a = dedupKey b →
       dedupe [a, b] = [if a.seeds < b.seeds then b else a]) ∧
     dedupe [w5, w12] = [w12] ∧ dedupe [w12, w5] = [w12]) :=
  ⟨by decide, rfl, rfl, by decide, C1_dedup_retention [w5] w5 w12 (by decide) rfl rfl⟩

end Jackett
